import Mathlib

/-!
Shallow embedding of the fan-out/fan-in HTTP GET dispatcher of `src/main.go`
(the other two source files are near-duplicate drafts of the same code).

Modelling conventions, all derived from the Go source:

* Go `error` payloads are modelled as `String`; the `Error[error]` values the
  program constructs always wrap a non-nil error (`err != nil` branches).
* `Result` is an open Go interface implemented by `Ok[T]` and `Error[U]` for
  arbitrary `T`, `U`.  The `UnpackResults` type switch (main.go:133-141)
  distinguishes exactly `Ok[RequestBodyAsString]` and `Error[error]`; every
  other instantiation falls through.  The embedding therefore has one
  constructor per dynamic shape the switch can see: `Ok [RequestBodyAsString]`
  (`OkStr`), `Error[error]` (`ErrErr`), any other `Ok` (`OkOther`) and any
  other `Error` (`ErrOther`).
* The network is a pure environment `env : String → HttpBehavior` giving, for
  each URL, what `http.Get` and the subsequent `io.ReadAll` do in this run:
  a transport-level error (Go: `http.Get` returns `err != nil`, `resp = nil`),
  an obtained response whose body read fails after some prefix (Go:
  `io.ReadAll` returns the bytes read so far together with an error), or an
  obtained response whose body is read completely.  The obtained-response
  behaviours carry the HTTP status code so that independence from it can be
  stated; the task code never looks at it, exactly as `AsyncHttpGetCall`
  never mentions `resp.StatusCode`.
* Goroutine scheduling is a `sched : List Nat`: the origin task of each
  successive message the collection loop receives.  The channel delivers each
  task's messages in their send order, and interleaves tasks arbitrarily;
  `collect` realises one such interleaving.  A schedule that asks for a
  message a task does not have denotes no real run (`none`).
* An unrecovered panic in any goroutine aborts the whole Go program, so a run
  in which some task panics yields no usable result sequence (`none`).
* In `SyncChainOfHttpGetCalls` (main.go:105-123) the channel has capacity
  `len(urls)` and the main goroutine receives nothing before `wg.Wait()`
  returns.  `wg.Wait()` returns only after every task has completed all of
  its sends.  Hence if the tasks together send more than `len(urls)` messages
  some send blocks forever and the program deadlocks: modelled as `none`.
  `AsyncChainOfHttpGetCalls` (main.go:86-98) drains while tasks send, so its
  collection of the first `len(urls)` arrivals always proceeds.
-/

namespace GoDispatch

/-- Alias kept from main.go:59: `type RequestBodyAsString = string`. -/
abbrev RequestBodyAsString := String

/-- Dynamic shapes of Go values implementing the `Result` interface
(main.go:27-38), as distinguishable by the `UnpackResults` type switch. -/
inductive Result where
  /-- A Go `Ok[RequestBodyAsString]` value. -/
  | OkStr : RequestBodyAsString → Result
  /-- A Go `Error[error]` value (payload: the error message, never nil). -/
  | ErrErr : String → Result
  /-- A Go `Ok[T]` value for some payload type `T` other than
  `RequestBodyAsString` (the string describes the payload). -/
  | OkOther : String → Result
  /-- A Go `Error[U]` value for some payload type `U` other than `error`,
  e.g. `Error[string]`. -/
  | ErrOther : String → Result
  deriving DecidableEq

/-- What the network does for one URL in one run: the joint behaviour of
`http.Get` (main.go:71) and `io.ReadAll` (main.go:77) for that call. -/
inductive HttpBehavior where
  /-- `http.Get` returns a non-nil error and a nil response. -/
  | transportError : String → HttpBehavior
  /-- A response (with the given status code) is obtained, but `io.ReadAll`
  fails after reading the given prefix of the body, with the given error. -/
  | readError : Nat → String → String → HttpBehavior
  /-- A response (with the given status code) is obtained and its body is
  read completely. -/
  | success : Nat → String → HttpBehavior
  deriving DecidableEq

/-- Everything observable about one execution of the task body: the messages
it sent to the channel in order, whether it panicked, whether an HTTP
response was obtained, and how many times the response body was closed. -/
structure TaskRun where
  sent : List Result
  panicked : Bool
  obtainedResponse : Bool
  bodyCloses : Nat
  deriving DecidableEq

/-- Embedding of `AsyncHttpGetCall` (main.go:67-83), per network behaviour.

* `transportError`: line 72 `err != nil` holds, line 73 sends
  `Error[error]{err}`; there is no `return`, so control reaches line 75
  `defer resp.Body.Close()`, which evaluates `resp.Body` with `resp = nil`
  and panics with a nil-pointer dereference.  One message sent, no response
  obtained, no close, panic.
* `readError`: the response is obtained; line 75 registers the deferred
  close; line 77 returns the partial body and a non-nil error; line 79 sends
  `Error[error]{err}`; again no `return`, so line 82 also sends
  `Ok[RequestBodyAsString]{string(body)}` with the partial body; the function
  returns and the deferred close runs once.
* `success`: line 82 sends `Ok[RequestBodyAsString]{string(body)}`; the
  deferred close runs once.  The status code is never inspected. -/
def AsyncHttpGetCall : HttpBehavior → TaskRun
  | .transportError e => ⟨[.ErrErr e], true, false, 0⟩
  | .readError _ partBody e => ⟨[.ErrErr e, .OkStr partBody], false, true, 1⟩
  | .success _ body => ⟨[.OkStr body], false, true, 1⟩

/-- Pending message queues of the tasks: task `i` has yet to deliver
`qs[i]`.  `popAt qs t` delivers the next message of task `t`. -/
def popAt (qs : List (List Result)) (t : Nat) :
    Option (Result × List (List Result)) :=
  match qs[t]? with
  | some (m :: rest) => some (m, qs.set t rest)
  | _ => none

/-- The collection loop (main.go:93-95 and main.go:118-120): receive exactly
`n` messages from the channel, in arrival order; `sched` says which task each
arriving message comes from.  `none` when the schedule denotes no real run. -/
def collect (qs : List (List Result)) (sched : List Nat) :
    Nat → Option (List Result)
  | 0 => some []
  | n + 1 =>
    match sched with
    | [] => none
    | t :: ts =>
      match popAt qs t with
      | some (m, qs2) => (collect qs2 ts n).map (fun r => m :: r)
      | none => none

/-- The per-task message queues of a batch: the goroutine launched for
`urls[i]` (main.go:89-92) sends exactly `(AsyncHttpGetCall (env urls[i])).sent`,
in that order. -/
def taskQueues (env : String → HttpBehavior) (urls : List String) :
    List (List Result) :=
  urls.map (fun u => (AsyncHttpGetCall (env u)).sent)

/-- Whether some task of the batch panics; an unrecovered goroutine panic
aborts the whole program. -/
def anyPanicked (env : String → HttpBehavior) (urls : List String) : Bool :=
  urls.any (fun u => (AsyncHttpGetCall (env u)).panicked)

/-- Total number of messages the batch's tasks send. -/
def totalMessages (env : String → HttpBehavior) (urls : List String) : Nat :=
  ((taskQueues env urls).map List.length).sum

/-- Embedding of `AsyncChainOfHttpGetCalls` (main.go:86-98): launch one task
per URL, then receive `len(urls)` messages in arrival order into `results`.
The program crashes (`none`) when a task panics; otherwise the result is the
first `len(urls)` arrivals under the given interleaving. -/
def AsyncChainOfHttpGetCalls (env : String → HttpBehavior)
    (urls : List String) (sched : List Nat) : Option (List Result) :=
  if anyPanicked env urls then none
  else collect (taskQueues env urls) sched urls.length

/-- Embedding of `SyncChainOfHttpGetCalls` (main.go:105-123): launch one task
per URL, `wg.Wait()` for all of them, then receive `len(urls)` messages in
arrival order.  Crashes (`none`) when a task panics.  Deadlocks (`none`) when
the tasks send more than `len(urls)` messages: the channel has capacity
`len(urls)`, nothing is received before `wg.Wait()` returns, and `wg.Wait()`
returns only once every task has completed all its sends. -/
def SyncChainOfHttpGetCalls (env : String → HttpBehavior)
    (urls : List String) (sched : List Nat) : Option (List Result) :=
  if anyPanicked env urls then none
  else if urls.length < totalMessages env urls then none
  else collect (taskQueues env urls) sched urls.length

/-- Embedding of `UnpackResults` (main.go:129-145): one pass over the
results; `Ok[RequestBodyAsString]` appends its payload and a nil error,
`Error[error]` appends the empty string and its error; any other dynamic
type matches neither case of the type switch and appends to neither slice. -/
def UnpackResults : List Result →
    List RequestBodyAsString × List (Option String)
  | [] => ([], [])
  | r :: rs =>
    let p := UnpackResults rs
    match r with
    | .OkStr v => (v :: p.1, none :: p.2)
    | .ErrErr e => ("" :: p.1, some e :: p.2)
    | _ => p

/-- A `Result` value of one of the two dynamic shapes the dispatcher itself
produces and the `UnpackResults` type switch recognises. -/
def wellFormed : Result → Bool
  | .OkStr _ => true
  | .ErrErr _ => true
  | _ => false

/-- Whether a message is a `Failure` outcome (`Error[error]`). -/
def isFailureMsg : Result → Bool
  | .ErrErr _ => true
  | _ => false

/-- Whether the task for this behaviour sends at least one `Failure`. -/
def sendsFailure (b : HttpBehavior) : Bool :=
  (AsyncHttpGetCall b).sent.any isFailureMsg

/-- Whether `http.Get` itself fails, before a response is obtained. -/
def isTransportError : HttpBehavior → Bool
  | .transportError _ => true
  | _ => false

/-- Whether a response is obtained but reading its body fails. -/
def isReadError : HttpBehavior → Bool
  | .readError _ _ _ => true
  | _ => false

/-- The success payload the type switch projects from a result, with the
zero value for failures. -/
def valueOf : Result → RequestBodyAsString
  | .OkStr v => v
  | _ => ""

/-- The error the type switch projects from a result (`none` models Go's
nil error appended for successes). -/
def errorOf : Result → Option String
  | .ErrErr e => some e
  | _ => none

/-- Concrete two-URL environment: both GETs succeed, with distinct bodies. -/
def envAB : String → HttpBehavior := fun u =>
  if u = "a" then .success 200 "A" else .success 200 "B"

/-- Concrete environment: every GET fails at transport level. -/
def envT : String → HttpBehavior := fun _ =>
  .transportError "connection refused"

/-- Concrete environment: URL "g" succeeds, every other GET fails at
transport level. -/
def envMix : String → HttpBehavior := fun u =>
  if u = "g" then .success 200 "G" else .transportError "dns failure"

/-- Concrete environment: every GET obtains a response whose body read then
fails after a prefix. -/
def envR : String → HttpBehavior := fun _ =>
  .readError 200 "part" "read failed"

/-- Concrete environment: URL "r" hits a body-read failure, every other URL
succeeds. -/
def envRG : String → HttpBehavior := fun u =>
  if u = "r" then .readError 200 "part" "read failed" else .success 200 "G"

/-- Helper for C6: on inputs made only of the two recognised shapes, the
type switch of `UnpackResults` acts as two parallel maps. -/
theorem UnpackResults_wellFormed (rs : List Result)
    (h : rs.all wellFormed = true) :
    UnpackResults rs = (rs.map valueOf, rs.map errorOf) := by
  induction rs with
  | nil => rfl
  | cons r rs ih =>
    simp only [List.all_cons, Bool.and_eq_true] at h
    cases r with
    | OkStr v => simp [UnpackResults, ih h.2, valueOf, errorOf]
    | ErrErr e => simp [UnpackResults, ih h.2, valueOf, errorOf]
    | OkOther s => simp [wellFormed] at h
    | ErrOther s => simp [wellFormed] at h

/-- C1: the claim requires `outcomes[i]` to be the outcome of `inputs[i]`
regardless of completion order; the code fills `results[i]` with the `i`-th
channel arrival, so when the task for "b" delivers before the task for "a",
both dispatch variants return the two successes swapped relative to the
input order. -/
theorem C1_collection_follows_arrival_not_input_order :
    (AsyncHttpGetCall (envAB "a")).sent = [.OkStr "A"] ∧
    (AsyncHttpGetCall (envAB "b")).sent = [.OkStr "B"] ∧
    AsyncChainOfHttpGetCalls envAB ["a", "b"] [1, 0] =
      some [.OkStr "B", .OkStr "A"] ∧
    SyncChainOfHttpGetCalls envAB ["a", "b"] [1, 0] =
      some [.OkStr "B", .OkStr "A"] ∧
    some [Result.OkStr "B", Result.OkStr "A"] ≠
      some [Result.OkStr "A", Result.OkStr "B"] := by decide

/-- C2: on a transport error the task does send exactly one `Failure` and no
`Success`, but it does not terminate cleanly: with `resp = nil` the
`defer resp.Body.Close()` on main.go:75 dereferences nil and the task
panics, which aborts the whole program. -/
theorem C2_transport_error_sends_one_failure_then_panics (e : String) :
    (AsyncHttpGetCall (.transportError e)).sent = [.ErrErr e] ∧
    (AsyncHttpGetCall (.transportError e)).panicked = true ∧
    (AsyncHttpGetCall (.transportError e)).bodyCloses = 0 :=
  ⟨rfl, rfl, rfl⟩

/-- C3: the claim says a task never panics and a batch with failing tasks
still returns all N outcomes; in the code a transport-error task panics (nil
dereference on main.go:75) and the unrecovered panic fails the whole batch:
a two-URL batch with one good and one failing URL yields no result sequence
from either dispatch variant. -/
theorem C3_transport_error_fails_whole_batch :
    (AsyncHttpGetCall (envMix "b")).panicked = true ∧
    AsyncChainOfHttpGetCalls envMix ["g", "b"] [0, 1] = none ∧
    SyncChainOfHttpGetCalls envMix ["g", "b"] [0, 1] = none := by decide

/-- C4 counterexample: a `Failure` message is also produced when the body
read fails after a response was obtained, so `Failure` is not produced
exactly on transport errors as the claim states. -/
theorem C4_failure_without_transport_error :
    isFailureMsg (Result.ErrErr "read failed") = true ∧
    Result.ErrErr "read failed" ∈
      (AsyncHttpGetCall (.readError 200 "part" "read failed")).sent ∧
    isTransportError (.readError 200 "part" "read failed") = false := by
  decide

/-- C4 (amended): the task sends a `Failure` exactly when the HTTP GET
reports a transport error or the body read fails; a fully read response
yields `Success(body)`, and the outcome never depends on the HTTP status
code, which the code never inspects. -/
theorem C4_failure_iff_transport_or_read_error (b : HttpBehavior) :
    (sendsFailure b = true ↔
      isTransportError b = true ∨ isReadError b = true) ∧
    (∀ (s s' : Nat) (body : String), AsyncHttpGetCall (.success s body) =
      AsyncHttpGetCall (.success s' body)) ∧
    (∀ (s s' : Nat) (p e : String), AsyncHttpGetCall (.readError s p e) =
      AsyncHttpGetCall (.readError s' p e)) ∧
    (∀ (s : Nat) (body : String),
      (AsyncHttpGetCall (.success s body)).sent = [.OkStr body]) := by
  refine ⟨?_, fun s s' body => rfl, fun s s' p e => rfl,
    fun s body => rfl⟩
  cases b <;>
    simp [sendsFailure, isTransportError, isReadError, AsyncHttpGetCall,
      isFailureMsg]

/-- C5: a batch of one URL whose GET fails at transport level makes the
task panic, so neither variant returns a 1-element outcome sequence — the
program crashes and returns nothing.  The empty batch, by contrast, does
behave as claimed: no task is launched and both variants immediately return
the empty sequence. -/
theorem C5_crash_returns_nothing_but_empty_batch_is_empty :
    AsyncChainOfHttpGetCalls envT ["u"] [0] = none ∧
    SyncChainOfHttpGetCalls envT ["u"] [0] = none ∧
    (∀ env : String → HttpBehavior,
      AsyncChainOfHttpGetCalls env [] [] = some [] ∧
      SyncChainOfHttpGetCalls env [] [] = some [] ∧
      taskQueues env [] = []) :=
  ⟨by decide, by decide, fun env => ⟨rfl, rfl, rfl⟩⟩

/-- C7: the two variants are not observably equivalent: a batch with one
URL whose body read fails makes the task send two messages, so in the
synchronous variant the capacity-1 channel fills before `wg.Wait()` can
return and the call deadlocks, while the asynchronous variant returns the
first arrival. -/
theorem C7_async_returns_where_sync_deadlocks :
    AsyncChainOfHttpGetCalls envR ["r"] [0] =
      some [.ErrErr "read failed"] ∧
    SyncChainOfHttpGetCalls envR ["r"] [0] = none ∧
    totalMessages envR ["r"] = 2 := by decide

/-- C8: every task that obtains an HTTP response closes the response body
exactly once before terminating, on the full-read path and on the
read-error path alike. -/
theorem C8_obtained_response_body_closed_once (b : HttpBehavior)
    (h : (AsyncHttpGetCall b).obtainedResponse = true) :
    (AsyncHttpGetCall b).bodyCloses = 1 := by
  cases b <;> simp [AsyncHttpGetCall] at h ⊢

/-- C8 witness: a concrete fully-read response, on which the body is
obtained and closed exactly once. -/
theorem C8_body_closed_once_witness :
    (AsyncHttpGetCall (.success 200 "body")).obtainedResponse = true ∧
    (AsyncHttpGetCall (.success 200 "body")).bodyCloses = 1 :=
  ⟨rfl, C8_obtained_response_body_closed_once _ rfl⟩

/-- C10: when a response is obtained but the body read fails, the missing
`return` after main.go:79 makes the task send two messages — first the
`Failure` with the read error, then a `Success` with the partial body — and
a two-task batch can collect both messages from the failing task. -/
theorem C10_read_error_sends_failure_then_success (s : Nat) (p e : String) :
    (AsyncHttpGetCall (.readError s p e)).sent = [.ErrErr e, .OkStr p] ∧
    (AsyncHttpGetCall (.readError s p e)).panicked = false ∧
    AsyncChainOfHttpGetCalls envRG ["r", "g"] [0, 0] =
      some [.ErrErr "read failed", .OkStr "part"] :=
  ⟨rfl, rfl, by decide⟩

/-- C6: on a sequence of N outcomes (values of the two shapes the dispatcher
produces), `UnpackResults` returns two parallel sequences of length N;
`errors[i]` is nil exactly when `outcomes[i]` is a `Success`, and then
`values[i]` is its payload; when `outcomes[i]` is a `Failure`, `values[i]`
is the empty string and `errors[i]` is the failure's error. -/
theorem C6_unpack_parallel_and_positional (rs : List Result)
    (h : rs.all wellFormed = true) :
    (UnpackResults rs).1.length = rs.length ∧
    (UnpackResults rs).2.length = rs.length ∧
    ∀ i : Nat, i < rs.length →
      (((UnpackResults rs).2[i]? = some none) ↔
        ∃ v, rs[i]? = some (.OkStr v)) ∧
      (∀ v, rs[i]? = some (.OkStr v) →
        (UnpackResults rs).1[i]? = some v) ∧
      (∀ e, rs[i]? = some (.ErrErr e) →
        (UnpackResults rs).1[i]? = some "" ∧
        (UnpackResults rs).2[i]? = some (some e)) := by
  rw [UnpackResults_wellFormed rs h]
  refine ⟨by simp, by simp, fun i hi => ?_⟩
  have hget : rs[i]? = some rs[i] := List.getElem?_eq_getElem hi
  have hw : wellFormed rs[i] = true :=
    List.all_eq_true.mp h _ (List.getElem_mem hi)
  cases hr : rs[i] with
  | OkStr v =>
    refine ⟨?_, ?_, ?_⟩
    · simp [List.getElem?_map, hget, hr, errorOf]
    · intro v' hv'
      rw [hget, hr] at hv'
      simp only [Option.some.injEq, Result.OkStr.injEq] at hv'
      simp [List.getElem?_map, hget, hr, valueOf, hv']
    · intro e he
      rw [hget, hr] at he
      simp at he
  | ErrErr e =>
    refine ⟨?_, ?_, ?_⟩
    · simp [List.getElem?_map, hget, hr, errorOf]
    · intro v' hv'
      rw [hget, hr] at hv'
      simp at hv'
    · intro e' he'
      rw [hget, hr] at he'
      simp only [Option.some.injEq, Result.ErrErr.injEq] at he'
      simp [List.getElem?_map, hget, hr, valueOf, errorOf, he']
  | OkOther s => rw [hr] at hw; simp [wellFormed] at hw
  | ErrOther s => rw [hr] at hw; simp [wellFormed] at hw

/-- C6 witness: the theorem applied to a concrete two-outcome sequence of
one success and one failure. -/
theorem C6_unpack_parallel_witness :
    [Result.OkStr "x", Result.ErrErr "y"].all wellFormed = true ∧
    (UnpackResults [Result.OkStr "x", Result.ErrErr "y"]).1.length =
      [Result.OkStr "x", Result.ErrErr "y"].length :=
  ⟨by decide,
    (C6_unpack_parallel_and_positional [Result.OkStr "x", Result.ErrErr "y"]
      (by decide)).1⟩

/-- C9: a result whose dynamic type is neither `Ok[RequestBodyAsString]` nor
`Error[error]` matches no case of the type switch and is dropped from both
output sequences, so an input holding only such values yields outputs
strictly shorter than the input. -/
theorem C9_unrecognised_results_skipped (rs : List Result) (r : Result)
    (h : wellFormed r = false) :
    UnpackResults (r :: rs) = UnpackResults rs ∧
    (UnpackResults [Result.OkOther "t", Result.ErrOther "w"]).1.length < 2 ∧
    (UnpackResults [Result.OkOther "t", Result.ErrOther "w"]).2.length < 2 := by
  refine ⟨?_, by decide, by decide⟩
  cases r with
  | OkStr v => simp [wellFormed] at h
  | ErrErr e => simp [wellFormed] at h
  | OkOther s => rfl
  | ErrOther s => rfl

/-- C9 witness: the theorem applied to a concrete `Ok` of a payload type
other than `RequestBodyAsString`, which is skipped. -/
theorem C9_unrecognised_results_skipped_witness :
    wellFormed (Result.OkOther "t") = false ∧
    UnpackResults [Result.OkOther "t"] = UnpackResults [] :=
  ⟨by decide,
    (C9_unrecognised_results_skipped [] (Result.OkOther "t") (by decide)).1⟩

end GoDispatch
